import Mathlib

/-!
Verification of the order-creation example: a generated OpenAPI client
(src/client/main.go) and an echo server handler (src/server/main.go) for
PUT /order/\x7bid\x7d, with the Order schema declared in the accompanying
article (src/unnamed/part_000). The generated code (gen.go produced by
oapi-codegen) is not present in src, so the encoding/decoding and routing
it provides are modelled from the spec where needed; the hand-written
handler and client are embedded directly from the source.
-/

namespace ArticleOpenapi

/-- Request body type generated from the Order schema. The schema declares
`item` (string, enum-constrained) and `price` (integer) as optional, so the
generated Go struct holds pointers; absence is a nil pointer, modelled here
as `Option`. The generated Go enum is a string type whose values are not
enforced at decode time, so `item` is a plain string. -/
structure PutOrderIdJSONRequestBody where
  item : Option String
  price : Option Int
deriving DecidableEq, Repr

/-- Generated enum constant for the schema value "Tea Table Green"
(src/unnamed/part_000 enum: Tea Table Green, Tea Table Red). -/
def OrderItemTeaTableGreen : String := "Tea Table Green"

/-- Generated enum constant for the schema value "Tea Table Red". -/
def OrderItemTeaTableRed : String := "Tea Table Red"

/-- Membership in the declared enumeration of the Order schema. -/
def isDeclaredItem (s : String) : Bool :=
  s == OrderItemTeaTableGreen || s == OrderItemTeaTableRed

/-- Scalar JSON values occurring in an Order body: strings and integers. -/
inductive JsonValue
  | str (s : String)
  | num (n : Int)
deriving DecidableEq, Repr

/-- A JSON object as an ordered list of key/value pairs. -/
abbrev JsonObject : Type := List (String × JsonValue)

/-- First value bound to key `k` in object `j`, if any. -/
def lookupField (j : JsonObject) (k : String) : Option JsonValue :=
  match List.find? (fun p => p.1 == k) j with
  | some p => some p.2
  | none => none

/-- Request body as received on the wire: either a parseable JSON object or
a malformed payload that fails to parse at all. -/
inductive Body
  | json (j : JsonObject)
  | malformed (raw : String)
deriving DecidableEq, Repr

/-- Modelled from the spec: the generated client marshals the Order value to
JSON; fields held by nil pointers are omitted from the payload (the schema
marks `item` and `price` non-required). gen.go is absent from src. -/
def encodeOrder (o : PutOrderIdJSONRequestBody) : JsonObject :=
  (match o.item with
   | some s => [("item", JsonValue.str s)]
   | none => []) ++
  (match o.price with
   | some n => [("price", JsonValue.num n)]
   | none => [])

/-- Decode an optional string field: absent is fine, a string value is taken
as-is, a number is a type error. -/
def decodeStringField (j : JsonObject) (k : String) : Except String (Option String) :=
  match lookupField j k with
  | none => Except.ok none
  | some (JsonValue.str s) => Except.ok (some s)
  | some (JsonValue.num _) => Except.error (k ++ ": cannot unmarshal number into string")

/-- Decode an optional integer field: absent is fine, a number value is taken
as-is, a string is a type error. -/
def decodeIntField (j : JsonObject) (k : String) : Except String (Option Int) :=
  match lookupField j k with
  | none => Except.ok none
  | some (JsonValue.num n) => Except.ok (some n)
  | some (JsonValue.str _) => Except.error (k ++ ": cannot unmarshal string into int")

/-- Modelled from the spec: decoding a JSON object into an Order value, as
performed by the generated server binding; no enum-membership check is
applied (the generated string type carries any value). gen.go is absent
from src. -/
def decodeOrder (j : JsonObject) : Except String PutOrderIdJSONRequestBody :=
  match decodeStringField j "item", decodeIntField j "price" with
  | Except.ok i, Except.ok p => Except.ok { item := i, price := p }
  | Except.error e, _ => Except.error e
  | _, Except.error e => Except.error e

/-- Modelled from the spec: echo's `c.Bind` decodes the request body against
the declared content type; a malformed payload is a decode error, a parsed
JSON object is decoded field by field. The echo framework is external to
src. -/
def bindBody (b : Body) : Except String PutOrderIdJSONRequestBody :=
  match b with
  | Body.malformed raw => Except.error ("malformed body: " ++ raw)
  | Body.json j => decodeOrder j

/-- Observable side effects of the handler: `log.Fatal` (which terminates the
process) and `log.Printf` of the decoded id and order. -/
inductive HandlerEffect
  | logFatal (msg : String)
  | logPrintf (id : String) (req : PutOrderIdJSONRequestBody)
deriving DecidableEq, Repr

/-- How a handler invocation ends: the process exits via `log.Fatal`, or the
handler returns an error value (`none` models Go's nil error). -/
inductive Outcome
  | fatalExit (msg : String)
  | ret (err : Option String)
deriving DecidableEq, Repr

/-- Result of one handler invocation: the emitted effects in order, the
status code the handler explicitly wrote to the response (if any), and how
the invocation ended. -/
structure HandlerResult where
  effects : List HandlerEffect
  writtenStatus : Option Nat
  outcome : Outcome
deriving DecidableEq, Repr

/-- The hand-written handler from src/server/main.go: bind the body into a
`PutOrderIdJSONRequestBody`; on bind error, `log.Fatal(err)` terminates the
process; otherwise `log.Printf("id: %v, req: %v", id, req)` and return nil.
The handler never writes a status code to the response. -/
def PutOrderId (c : Body) (id : String) : HandlerResult :=
  match bindBody c with
  | Except.error err =>
      { effects := [HandlerEffect.logFatal err]
        writtenStatus := none
        outcome := Outcome.fatalExit err }
  | Except.ok req =>
      { effects := [HandlerEffect.logPrintf id req]
        writtenStatus := none
        outcome := Outcome.ret none }

/-- Modelled from the spec: response finalization by the external framework.
A handler that terminated the process sends no response; a handler that
returns nil without explicitly writing a status code gets the framework's
default success status 200, never the documented 201. -/
def responseStatus (r : HandlerResult) : Option Nat :=
  match r.outcome with
  | Outcome.fatalExit _ => none
  | Outcome.ret _ =>
      match r.writtenStatus with
      | some s => some s
      | none => some 200

/-- A status code in the client-error range. -/
def is4xx (s : Nat) : Bool := 400 ≤ s && s ≤ 499

/-- An HTTP request to the one declared operation: method, rendered path,
the extracted path parameter `id`, and the wire body. -/
structure Request where
  method : String
  path : String
  pathId : String
  body : Body
deriving DecidableEq, Repr

/-- Modelled from the spec: the generated `PutOrderIdWithResponse` builds a
PUT request to /order/ followed by the id, with the JSON-encoded Order as
body. gen.go is absent from src. -/
def buildRequest (id : String) (o : PutOrderIdJSONRequestBody) : Request :=
  { method := "PUT"
    path := "/order/" ++ id
    pathId := id
    body := Body.json (encodeOrder o) }

/-- Modelled from the spec: the generated `RegisterHandlers` routes the one
declared operation (PUT on /order/ plus id) to `PutOrderId`, passing the
path parameter and the request body. gen.go is absent from src. -/
def dispatch (r : Request) : HandlerResult :=
  PutOrderId r.body r.pathId

/-- The Order value the client constructs in src/client/main.go: both
optional fields present, item set to the generated enum constant
`OrderItemTeaTableGreen` and price set to 14 (through pointers). -/
def clientOrder : PutOrderIdJSONRequestBody :=
  { item := some OrderItemTeaTableGreen, price := some 14 }

/-- The single request the client sends in src/client/main.go: id "234578"
with `clientOrder` as body. -/
def clientRequest : Request :=
  buildRequest "234578" clientOrder

/-- Observable outcome of the client program: `log.Fatal(err)` on a failed
exchange, or `fmt.Println(resp.StatusCode())` on a completed exchange. -/
inductive ClientOutput
  | fatal (e : String)
  | printed (status : Nat)
deriving DecidableEq, Repr

/-- The tail of the client's main from src/client/main.go, as a function of
the exchange result: on transport error, `log.Fatal(err)`; otherwise print
the numeric status code. -/
def clientMain (exchange : Except String Nat) : ClientOutput :=
  match exchange with
  | Except.error e => ClientOutput.fatal e
  | Except.ok status => ClientOutput.printed status

/-- Decoding an encoded Order recovers it exactly: the omitted-field encoding
and the optional-field decoding are mutually inverse. -/
theorem decode_encode (o : PutOrderIdJSONRequestBody) :
    decodeOrder (encodeOrder o) = Except.ok o := by
  obtain ⟨i, p⟩ := o
  cases i <;> cases p <;> rfl

/-- C1: the spec claims every valid payload to PUT /order/\x7bid\x7d yields
status 201, but the handler returns nil without ever writing a status code,
so the framework's default 200 is what every payload produces; 201 is never
emitted. This records the divergence: the response status is 200, not 201,
for every id and every Order payload. -/
theorem putOrder_status_is_200_never_201 (id : String) (o : PutOrderIdJSONRequestBody) :
    responseStatus (dispatch (buildRequest id o)) = some 200 ∧
    responseStatus (dispatch (buildRequest id o)) ≠ some 201 := by
  have hb : bindBody (Body.json (encodeOrder o)) = Except.ok o := decode_encode o
  refine ⟨?_, ?_⟩ <;>
    simp [dispatch, buildRequest, PutOrderId, hb, responseStatus]

/-- C2: if decoding the request body into an Order fails, the handler calls
`log.Fatal`, terminating the process instead of returning an error response:
its outcome is a fatal exit and its only effect is the fatal log. -/
theorem bind_error_terminates_process (b : Body) (id e : String)
    (h : bindBody b = Except.error e) :
    (PutOrderId b id).outcome = Outcome.fatalExit e ∧
    (PutOrderId b id).effects = [HandlerEffect.logFatal e] := by
  simp [PutOrderId, h]

/-- Witness for C2 at a concrete malformed body. -/
theorem bind_error_terminates_process_witness :
    bindBody (Body.malformed "not json") = Except.error "malformed body: not json" ∧
    (PutOrderId (Body.malformed "not json") "1").outcome =
      Outcome.fatalExit "malformed body: not json" :=
  ⟨rfl,
   (bind_error_terminates_process (Body.malformed "not json") "1"
     "malformed body: not json" rfl).1⟩

/-- C3: for the client's concrete request (PUT /order/234578 with item "Tea
Table Green" and price 14), the handler does observe id "234578", item "Tea
Table Green" and price 14, but the response status is the framework default
200, not the claimed 201. -/
theorem concrete_scenario_observes_values_but_status_200 :
    (dispatch clientRequest).effects =
      [HandlerEffect.logPrintf "234578"
        { item := some "Tea Table Green", price := some 14 }] ∧
    responseStatus (dispatch clientRequest) = some 200 ∧
    responseStatus (dispatch clientRequest) ≠ some 201 := by
  refine ⟨by decide, by decide, by decide⟩

/-- C4: the spec claims a payload whose item is outside the declared enum is
rejected with a 4xx status; the code performs no enum validation: the body
with item "Nonexistent Item" decodes successfully, the handler returns nil,
and the response is the success status 200, which is not in the 4xx range. -/
theorem unknown_item_accepted_with_success :
    isDeclaredItem "Nonexistent Item" = false ∧
    (PutOrderId (Body.json [("item", JsonValue.str "Nonexistent Item")]) "1").outcome =
      Outcome.ret none ∧
    responseStatus (PutOrderId (Body.json [("item", JsonValue.str "Nonexistent Item")]) "1") =
      some 200 ∧
    is4xx 200 = false := by
  decide

/-- C5: when the exchange fails with a transport error, the client reports
the explicit error (`log.Fatal`) and never prints any status code, so a
failure is distinguishable from every successful exchange. -/
theorem transport_error_reported_never_silent (e : String) :
    clientMain (Except.error e) = ClientOutput.fatal e ∧
    ∀ s : Nat, clientMain (Except.error e) ≠ ClientOutput.printed s := by
  exact ⟨rfl, fun s h => ClientOutput.noConfusion h⟩

/-- C6: encoding any Order value (each optional field present or absent) with
the client and decoding it in the dispatcher yields an Order whose item and
price equal those of the original. -/
theorem encode_decode_roundtrip (o : PutOrderIdJSONRequestBody) :
    ∃ o2, bindBody (Body.json (encodeOrder o)) = Except.ok o2 ∧
      o2.item = o.item ∧ o2.price = o.price :=
  ⟨o, decode_encode o, rfl, rfl⟩

/-- C7: for every request whose body decodes successfully, the handler's only
side effect is logging the decoded id and order, it returns nil (success, no
body), and it writes no status code — in particular it never emits 201. -/
theorem decoded_request_only_logs_returns_success (b : Body) (id : String)
    (o : PutOrderIdJSONRequestBody) (h : bindBody b = Except.ok o) :
    PutOrderId b id =
      { effects := [HandlerEffect.logPrintf id o]
        writtenStatus := none
        outcome := Outcome.ret none } := by
  simp [PutOrderId, h]

/-- Witness for C7 at the client's concrete body. -/
theorem decoded_request_only_logs_returns_success_witness :
    PutOrderId
        (Body.json [("item", JsonValue.str "Tea Table Green"), ("price", JsonValue.num 14)])
        "234578" =
      { effects := [HandlerEffect.logPrintf "234578"
          { item := some "Tea Table Green", price := some 14 }]
        writtenStatus := none
        outcome := Outcome.ret none } :=
  decoded_request_only_logs_returns_success
    (Body.json [("item", JsonValue.str "Tea Table Green"), ("price", JsonValue.num 14)])
    "234578"
    { item := some "Tea Table Green", price := some 14 }
    rfl

/-- C8: in the request body each optional field is independently absent or
present with a value, and absence is distinguishable from a present zero
value, both in the Order value and in its wire encoding. -/
theorem optional_fields_independent_and_distinguishable :
    (∀ (i : Option String) (p : Option Int),
      ∃ o : PutOrderIdJSONRequestBody, o.item = i ∧ o.price = p) ∧
    ({ item := none, price := some 0 } : PutOrderIdJSONRequestBody) ≠
      { item := none, price := none } ∧
    encodeOrder { item := none, price := some 0 } ≠
      encodeOrder { item := none, price := none } := by
  refine ⟨fun i p => ⟨{ item := i, price := p }, rfl, rfl⟩, by decide, by decide⟩

/-- C9: whenever the body decodes successfully, PutOrderId returns a nil
error, whatever the decoded item and price are: the handler performs no
enum-membership or range validation. -/
theorem handler_returns_nil_without_validation (b : Body) (id : String)
    (o : PutOrderIdJSONRequestBody) (h : bindBody b = Except.ok o) :
    (PutOrderId b id).outcome = Outcome.ret none := by
  simp [PutOrderId, h]

/-- Witness for C9 at a body with a non-enum item and a negative price. -/
theorem handler_returns_nil_without_validation_witness :
    bindBody
        (Body.json [("item", JsonValue.str "Nonexistent Item"), ("price", JsonValue.num (-5))]) =
      Except.ok { item := some "Nonexistent Item", price := some (-5) } ∧
    (PutOrderId
        (Body.json [("item", JsonValue.str "Nonexistent Item"), ("price", JsonValue.num (-5))])
        "9").outcome = Outcome.ret none :=
  ⟨rfl,
   handler_returns_nil_without_validation
     (Body.json [("item", JsonValue.str "Nonexistent Item"), ("price", JsonValue.num (-5))])
     "9"
     { item := some "Nonexistent Item", price := some (-5) }
     rfl⟩

/-- C10: the client invoker is deterministic: the request it constructs is
the fixed closed value with path id "234578", item "Tea Table Green"
present and price 14 present, so any two runs send equal payloads. -/
theorem client_request_deterministic :
    clientRequest =
      { method := "PUT"
        path := "/order/234578"
        pathId := "234578"
        body := Body.json
          [("item", JsonValue.str "Tea Table Green"), ("price", JsonValue.num 14)] } := by
  decide

end ArticleOpenapi
